import Mathlib

/-!
Verification development for the DrugRepurposing data-acquisition scripts
(getDiseasePathways.py, getDrugPathways.py, getSMILESforDrugsAndCompounds.py).

The Python scripts are shallowly embedded: HTTP is modelled by an oracle
mapping the attempt index (for retry helpers) or the URL (for the disease
pipeline) to the outcome the network would produce; time stamps and delays
are exact rationals; Python string operations are re-implemented over
List Char so that every definition is executable and kernel-reducible.
-/

/-! ## Python string primitives over List Char -/

/-- Python s.split(sep) for a one-character separator.
Always returns at least one (possibly empty) piece. -/
def splitOnChar (sep : Char) : List Char → List (List Char)
  | [] => [[]]
  | c :: cs =>
    match splitOnChar sep cs with
    | [] => [[c]]
    | h :: t => if c = sep then [] :: h :: t else (c :: h) :: t

/-- Python s.strip(): drop whitespace from both ends (ASCII whitespace). -/
def trimCharList (l : List Char) : List Char :=
  ((l.dropWhile Char.isWhitespace).reverse.dropWhile Char.isWhitespace).reverse

/-- Python s.replace(pat, ""): remove every occurrence of a non-empty
pattern, scanning left to right.  The fuel argument is the length of the
list; every step consumes at least one character, so the fuel never runs
out on the initial call. -/
def replaceAllFuel (pat : List Char) : Nat → List Char → List Char
  | 0, _ => []
  | _ + 1, [] => []
  | fuel + 1, c :: cs =>
    if pat ≠ [] ∧ pat.isPrefixOf (c :: cs) then
      replaceAllFuel pat fuel (cs.drop (pat.length - 1))
    else
      c :: replaceAllFuel pat fuel cs

/-- Python s.replace(pat, "") wrapper on character lists. -/
def replaceAll (pat l : List Char) : List Char :=
  replaceAllFuel pat l.length l

/-- Python re.findall of the pattern hsa followed by one or more digits:
non-overlapping, left to right, each match takes the maximal digit run.
Fueled so that the definition is structural; fuel = length suffices. -/
def findAllHsaF : Nat → List Char → List (List Char)
  | 0, _ => []
  | _ + 1, [] => []
  | fuel + 1, l =>
    match l with
    | 'h' :: 's' :: 'a' :: rest =>
      let ds := rest.takeWhile (·.isDigit)
      if ds.isEmpty then findAllHsaF fuel ('s' :: 'a' :: rest)
      else ('h' :: 's' :: 'a' :: ds) :: findAllHsaF fuel (rest.dropWhile (·.isDigit))
    | _ :: rest => findAllHsaF fuel rest
    | [] => []

/-- Python re.search of the pattern hsa followed by exactly five digits:
returns the first (leftmost) match, if any. -/
def searchHsa5F : Nat → List Char → Option (List Char)
  | 0, _ => none
  | _ + 1, [] => none
  | fuel + 1, l =>
    match l with
    | 'h' :: 's' :: 'a' :: rest =>
      if (rest.take 5).length == 5 && (rest.take 5).all (·.isDigit) then
        some ('h' :: 's' :: 'a' :: rest.take 5)
      else searchHsa5F fuel ('s' :: 'a' :: rest)
    | _ :: rest => searchHsa5F fuel rest
    | [] => none

/-! ## String wrappers -/

/-- Python s.split(sep) on strings. -/
def pySplit (sep : Char) (s : String) : List String :=
  (splitOnChar sep s.data).map (fun l => ⟨l⟩)

/-- Python s.strip() on strings. -/
def pyStrip (s : String) : String :=
  ⟨trimCharList s.data⟩

/-- Python s.split(newline) after stripping is the common idiom in the
scripts; this is just the raw split. -/
def pyLines (s : String) : List String :=
  pySplit '\n' s

/-- Python s.replace(pat, "") on strings. -/
def replaceAllStr (pat s : String) : String :=
  ⟨replaceAll pat.data s.data⟩

/-- Python s.startswith(pre) on strings. -/
def strStartsWith (pre s : String) : Bool :=
  pre.data.isPrefixOf s.data

/-- All matches of the regex hsa with one or more digits in a line. -/
def findAllHsa (s : String) : List String :=
  (findAllHsaF s.data.length s.data).map (fun l => ⟨l⟩)

/-- First match of the regex hsa with exactly five digits in a line. -/
def searchHsa5 (s : String) : Option String :=
  (searchHsa5F s.data.length s.data).map (fun l => ⟨l⟩)

/-! ## Retry helpers

make_request_with_retry (getDiseasePathways.py lines 11-30) and
request_with_retry (getSMILESforDrugsAndCompounds.py lines 70-82).
An attempt either raises an exception or produces a response with a
status code and a body.  The oracle gives the outcome of each attempt
(0-indexed); the jitter stream gives the value random.uniform would
return before each sleep. -/

inductive AttemptResult where
  | exception : AttemptResult
  | response (status : Nat) (body : String) : AttemptResult
deriving DecidableEq

/-- Outcome of a retry helper: the returned response (none is the failure
sentinel), the number of attempts performed, and the delays slept. -/
structure RetryResult where
  response : Option AttemptResult
  attempts : Nat
  delays : List ℚ

/-- Shared retry loop: try attempts i, i+1, ... while fuel lasts; stop at
the first attempt the success test accepts; sleep delay i after each
failed attempt (the Python for-loop sleeps even after the last one). -/
def retryLoop (ok : AttemptResult → Bool) (oracle : Nat → AttemptResult)
    (delay : Nat → ℚ) : Nat → Nat → RetryResult
  | _, 0 => ⟨none, 0, []⟩
  | i, fuel + 1 =>
    let r := oracle i
    if ok r then ⟨some r, 1, []⟩
    else
      let rest := retryLoop ok oracle delay (i + 1) fuel
      ⟨rest.response, rest.attempts + 1, delay i :: rest.delays⟩

/-- Success test of make_request_with_retry: status code 200. -/
def keggOk : AttemptResult → Bool
  | .exception => false
  | .response st _ => st == 200

/-- Success test of request_with_retry: status 200 and non-blank body
(resp.status_code == 200 and resp.text.strip()). -/
def smilesOk : AttemptResult → Bool
  | .exception => false
  | .response st body => st == 200 && pyStrip body != ""

/-- make_request_with_retry(url, max_retries, initial_delay): the delay
slept after a failed attempt is initial_delay + uniform(0, 1), capped at
60 (getDiseasePathways.py lines 23-27).  Defaults in the source are
max_retries = 20, initial_delay = 1. -/
def makeRequestWithRetry (oracle : Nat → AttemptResult) (jitter : Nat → ℚ)
    (maxRetries : Nat) (initialDelay : ℚ) : RetryResult :=
  retryLoop keggOk oracle (fun i => min (initialDelay + jitter i) 60) 0 maxRetries

/-- request_with_retry(url, max_retries, pause): the delay slept after a
failed attempt is pause + uniform(0.1, 1.0), uncapped
(getSMILESforDrugsAndCompounds.py line 80).  Defaults in the source are
max_retries = 20, pause = 1. -/
def requestWithRetry (oracle : Nat → AttemptResult) (jitter : Nat → ℚ)
    (maxRetries : Nat) (pause : ℚ) : RetryResult :=
  retryLoop smilesOk oracle (fun i => pause + jitter i) 0 maxRetries

/-- kegg_api_request (getDrugPathways.py lines 81-97): a single
rate-limited attempt; any failure (exception, or a status other than 200)
yields the no-data sentinel.  Returns the body and the number of HTTP
attempts issued. -/
def keggApiRequest (oracle : Nat → AttemptResult) : Option String × Nat :=
  match oracle 0 with
  | .exception => (none, 1)
  | .response st body =>
    if st == 200 then (some body, 1)
    else if st == 404 then (none, 1)
    else (none, 1)

/-! ## Flat-file section extractor

The extractor _extract_pathways_from_entry (getDrugPathways.py lines
273-289): scan the lines of the record; a line starting with PATHWAY
opens the section and is scanned with findall, an indented line (two
leading spaces) while the section is open is scanned too, and a
non-indented line closes the section. -/

/-- Matches of the pathway regex in one line, each prefixed with path:
as the source does. -/
def pathMatches (line : String) : List String :=
  (findAllHsa line).map (fun m => "path:" ++ m)

/-- The line loop of _extract_pathways_from_entry, carrying the
in_pathway_section flag.  The branch order mirrors the if/elif chain of
the source exactly. -/
def extractLoop : Bool → List String → List String
  | _, [] => []
  | inSection, line :: rest =>
    if strStartsWith "PATHWAY" line then
      pathMatches line ++ extractLoop true rest
    else if inSection && strStartsWith "  " line then
      pathMatches line ++ extractLoop inSection rest
    else if !(strStartsWith "  " line) then
      extractLoop false rest
    else
      extractLoop inSection rest

/-- _extract_pathways_from_entry(entry_text): split on newlines and scan.-/
def extractPathwaysFromEntry (entryText : String) : List String :=
  extractLoop false (pySplit '\n' entryText)

/-! ## Rate limiter (getDrugPathways.py lines 27-52)

Timestamps are exact rationals standing for the float seconds of
time.time().  The queue is FIFO: head is the oldest recorded call. -/

/-- The eviction while-loop of RateLimiter.acquire: pop from the front
while the front timestamp is at least time_period old, breaking at the
first recent one. -/
def evictOld (timePeriod now : ℚ) : List ℚ → List ℚ
  | [] => []
  | t :: ts => if now - t < timePeriod then t :: ts else evictOld timePeriod now ts

structure RateLimiter where
  maxCalls : Nat
  timePeriod : ℚ
  calls : List ℚ

/-- RateLimiter.acquire at wall-clock time now: evict old timestamps,
sleep while at capacity, then record the call (the source records the
time captured before sleeping).  Returns the new limiter state and the
wall-clock time at which the acquisition completes. -/
def RateLimiter.acquire (rl : RateLimiter) (now : ℚ) : RateLimiter × ℚ :=
  let q := evictOld rl.timePeriod now rl.calls
  let finish :=
    if rl.maxCalls ≤ q.length then
      let sleepTime := q.headD 0 + rl.timePeriod - now
      if 0 < sleepTime then now + sleepTime else now
    else now
  (⟨rl.maxCalls, rl.timePeriod, q ++ [now]⟩, finish)

/-! ## Database sink with conflict-ignore semantics

save_results (getDrugPathways.py lines 327-369) and save_chunk
(getSMILESforDrugsAndCompounds.py lines 166-182) both execute
INSERT OR IGNORE into a table carrying a composite UNIQUE constraint on
the pair columns.  The table is modelled as the list of its pair rows;
the UNIQUE constraint plus OR IGNORE means a row is appended only when
the pair is not already present. -/

/-- One INSERT OR IGNORE of a pair into a table whose pair columns carry
a UNIQUE constraint. -/
def insertOrIgnore (table : List (String × String)) (p : String × String) :
    List (String × String) :=
  if p ∈ table then table else table ++ [p]

/-- The database sink: INSERT OR IGNORE every pair of the run into the
table (batching in the source changes only commit boundaries, not the
final table contents). -/
def saveResults (pairs : List (String × String)) (table : List (String × String)) :
    List (String × String) :=
  pairs.foldl insertOrIgnore table

/-! ## Disease pipeline (getDiseasePathways.py) -/

/-- Set-valued accumulation: pathways is a Python set; adding an element
already present changes nothing.  The model keeps first-insertion order. -/
def addUnique (acc : List String) (x : String) : List String :=
  if x ∈ acc then acc else acc ++ [x]

/-- Add every pathway of one tab-separated link line (method 1 and
method 3 of get_disease_pathways): lines with exactly two tab-separated
fields contribute the second field with every path: occurrence removed. -/
def addLinkLine (acc : List String) (line : String) : List String :=
  match pySplit '\t' line with
  | [_, pathway] => addUnique acc (replaceAllStr "path:" pathway)
  | _ => acc

/-- One step of the method-2 scan of get_disease_pathways (lines 68-91):
a PATHWAY line opens the section and its first hsa plus five digits match
is added; an indented line while open contributes its first match; a
non-indented line closes the section. -/
def diseaseScanStep : Bool × List String → String → Bool × List String
  | (inSection, acc), line =>
    if strStartsWith "PATHWAY" line then
      let part := pyStrip (replaceAllStr "PATHWAY" line)
      let acc2 :=
        if part ≠ "" then
          match searchHsa5 part with
          | some m => addUnique acc m
          | none => acc
        else acc
      (true, acc2)
    else if strStartsWith "  " line && inSection then
      let part := pyStrip line
      let acc2 :=
        if part ≠ "" then
          match searchHsa5 part with
          | some m => addUnique acc m
          | none => acc
        else acc
      (inSection, acc2)
    else if !(strStartsWith "  " line) && inSection then
      (false, acc)
    else
      (inSection, acc)

/-- get_disease_pathways(disease_id) with the network abstracted to a
fetch oracle from URL to the text of a successful retried request (none
stands for the failure sentinel of make_request_with_retry).  Mirrors the
three methods of the source in order and returns (pathway list,
disease_id) as the source does. -/
def getDiseasePathways (fetch : String → Option String) (diseaseId : String) :
    List String × String :=
  let pathways : List String := []
  let pathways :=
    match fetch ("https://rest.kegg.jp/link/pathway/" ++ diseaseId) with
    | some txt =>
      if pyStrip txt ≠ "" then
        (pyLines (pyStrip txt)).foldl addLinkLine pathways
      else pathways
    | none => pathways
  let pathways :=
    match fetch ("https://rest.kegg.jp/get/" ++ diseaseId) with
    | some txt =>
      if pyStrip txt ≠ "" then
        ((pyLines (pyStrip txt)).foldl diseaseScanStep (false, pathways)).2
      else pathways
    | none => pathways
  let pathways :=
    match fetch ("https://rest.kegg.jp/link/hsa/" ++ diseaseId) with
    | some txt =>
      if pyStrip txt ≠ "" then
        (pyLines (pyStrip txt)).foldl
          (fun acc line =>
            match pySplit '\t' line with
            | [_, gene] =>
              match fetch ("https://rest.kegg.jp/link/pathway/" ++ gene) with
              | some gtxt =>
                if pyStrip gtxt ≠ "" then
                  (pyLines (pyStrip gtxt)).foldl addLinkLine acc
                else acc
              | none => acc
            | _ => acc)
          pathways
      else pathways
    | none => pathways
  (pathways, diseaseId)

/-- process_diseases_chunk (getDiseasePathways.py lines 117-133): the
per-item work is a fallible computation; an exception raised for one
disease is caught at that scope and recorded as (disease_id, empty
list), and the loop continues with the next disease. -/
def processDiseasesChunk (run : String → Except String (List String × String))
    (diseaseIds : List String) (_chunkId : Nat) : List (String × List String) :=
  diseaseIds.map fun diseaseId =>
    match run diseaseId with
    | .ok (pathways, _) => (diseaseId, pathways)
    | .error _ => (diseaseId, [])

/-! ## SQL file sink (getDiseasePathways.py lines 135-165) -/

/-- A single quote character, used to build the inline string literals of
the generated INSERT statements. -/
def sqlQuote : String :=
  ⟨[Char.ofNat 39]⟩

/-- One INSERT statement of write_sql_file, with the path: storage
qualifier the source adds back. -/
def insertStatement (diseaseId pathway : String) : String :=
  "INSERT INTO DiseasePathways (disease_id, pathway_id) VALUES (" ++
    sqlQuote ++ diseaseId ++ sqlQuote ++ ", " ++
    sqlQuote ++ "path:" ++ pathway ++ sqlQuote ++ ");\n"

/-- Running state of write_sql_file: the file content written so far and
the three counters the function returns. -/
structure SqlOut where
  content : String
  insertCount : Nat
  withPathways : Nat
  withoutPathways : Nat
deriving DecidableEq

/-- The body of the result loop of write_sql_file for one
(disease_id, pathway list) entry. -/
def sqlStep (st : SqlOut) (entry : String × List String) : SqlOut :=
  if entry.2 ≠ [] then
    let st := { st with withPathways := st.withPathways + 1 }
    entry.2.foldl
      (fun s pathway =>
        { s with
          content := s.content ++ insertStatement entry.1 pathway
          insertCount := s.insertCount + 1 })
      st
  else
    { st with withoutPathways := st.withoutPathways + 1 }

/-- write_sql_file(results): transaction begin, blanket DELETE, one
INSERT per pathway of each entry, transaction commit; returns the
content of the file together with the three counters. -/
def writeSqlFile (results : List (String × List String)) : SqlOut :=
  let header :=
    "BEGIN TRANSACTION;\n\n" ++ "DELETE FROM DiseasePathways;\n" ++
      "-- Inserting disease-pathway relationships\n\n"
  let st := results.foldl sqlStep ⟨header, 0, 0, 0⟩
  { st with content := st.content ++ "\nCOMMIT;\n" }

/-! ## Mock network of the end-to-end scenario (claim about H00001) -/

/-- Mock flat-file record returned by the get-entry endpoint: its PATHWAY
section names hsa04930. -/
def mockDiseaseRecord : String :=
  "ENTRY       H00001                      Disease\n" ++
    "NAME        Type II diabetes mellitus\n" ++
    "PATHWAY     hsa04930  Type II diabetes mellitus\n" ++
    "///"

/-- Mock network: the pathway-link endpoint returns one line, the
get-entry endpoint returns the record above, the gene-link endpoint
returns no data, and every other URL fails permanently. -/
def mockFetch (url : String) : Option String :=
  if url = "https://rest.kegg.jp/link/pathway/H00001" then
    some "H00001\tpath:hsa04910"
  else if url = "https://rest.kegg.jp/get/H00001" then
    some mockDiseaseRecord
  else if url = "https://rest.kegg.jp/link/hsa/H00001" then
    some ""
  else
    none

/-! ## Closed forms used to state properties of write_sql_file -/

/-- Concatenation of a list of strings, front to back. -/
def strConcat : List String → String
  | [] => ""
  | s :: rest => s ++ strConcat rest

/-- The INSERT block of the generated SQL file: one statement per pathway
of each entry, in input order. -/
def sqlBody (results : List (String × List String)) : String :=
  strConcat (results.map fun entry => strConcat (entry.2.map (insertStatement entry.1)))

/-- Total number of pathways across the result list. -/
def totalInserts (results : List (String × List String)) : Nat :=
  (results.map fun entry => entry.2.length).sum

/-- Number of entries whose pathway list is non-empty. -/
def countWithData (results : List (String × List String)) : Nat :=
  (results.filter fun entry => !entry.2.isEmpty).length

/-- Number of entries whose pathway list is empty. -/
def countWithoutData (results : List (String × List String)) : Nat :=
  (results.filter fun entry => entry.2.isEmpty).length

/-! ## Concrete inputs used by counterexamples and witnesses -/

/-- A record whose PATHWAY section has three indented continuation lines
and whose closing non-indented line itself begins with PATHWAY. -/
def c3CounterRecord : String :=
  "ENTRY\nPATHWAY     hsa00001\n  hsa00002\n  hsa00003\n  hsa00004\n" ++
    "PATHWAY     hsa00005\n///"

/-- A record whose PATHWAY section has three indented continuation lines,
closed by a non-indented line, with unrelated material on both sides. -/
def c3WitnessRecord : String :=
  "ENTRY\nPATHWAY     hsa00001\n  hsa00002 and hsa00003\n  text\n" ++
    "  hsa00004\n///\ntrailing hsa99999"

/-- An attempt oracle that fails with status 500 on attempt 1 and
succeeds with status 200 on attempt 2. -/
def c1Oracle : Nat → AttemptResult :=
  fun i => if i = 1 then .response 200 "ok" else .response 500 ""

/-- An attempt oracle whose every attempt raises an exception. -/
def failOracle : Nat → AttemptResult :=
  fun _ => .exception

/-- An attempt oracle whose every attempt yields status 200 with a
whitespace-only body. -/
def blankOracle : Nat → AttemptResult :=
  fun _ => .response 200 "  \t "

/-- A per-disease runner that succeeds on H1 and raises on everything
else. -/
def c7Run : String → Except String (List String × String) :=
  fun d => if d = "H1" then .ok (["hsa00001"], d) else .error "boom"

/-! ## Helper lemmas about the retry loop -/

theorem retryLoop_all_fail (ok : AttemptResult → Bool) (oracle : Nat → AttemptResult)
    (delay : Nat → ℚ) :
    ∀ (fuel start : Nat), (∀ j, j < fuel → ok (oracle (start + j)) = false) →
      retryLoop ok oracle delay start fuel =
        ⟨none, fuel, (List.range fuel).map fun j => delay (start + j)⟩ := by
  intro fuel
  induction fuel with
  | zero => intro start _; rfl
  | succ n ih =>
    intro start h
    have h0 : ok (oracle start) = false := by simpa using h 0 n.succ_pos
    have hrest := ih (start + 1) (fun j hj => by
      have e : start + 1 + j = start + (j + 1) := by omega
      rw [e]
      exact h (j + 1) (by omega))
    simp only [retryLoop, h0, Bool.false_eq_true, if_false, hrest]
    have edelays : delay start :: ((List.range n).map fun j => delay (start + 1 + j)) =
        (List.range (n + 1)).map fun j => delay (start + j) := by
      rw [List.range_succ_eq_map, List.map_cons, List.map_map]
      refine congrArg₂ _ (by rw [Nat.add_zero]) ?_
      refine List.map_congr_left ?_
      intro a _
      simp only [Function.comp_apply]
      refine congrArg _ (by omega)
    rw [← edelays]

theorem retryLoop_first_success (ok : AttemptResult → Bool) (oracle : Nat → AttemptResult)
    (delay : Nat → ℚ) :
    ∀ (fuel start k : Nat), k < fuel →
      (∀ j, j < k → ok (oracle (start + j)) = false) →
      ok (oracle (start + k)) = true →
      (retryLoop ok oracle delay start fuel).response = some (oracle (start + k)) ∧
      (retryLoop ok oracle delay start fuel).attempts = k + 1 := by
  intro fuel
  induction fuel with
  | zero => intro start k hk; exact absurd hk (Nat.not_lt_zero k)
  | succ n ih =>
    intro start k hk hfail hsucc
    cases k with
    | zero =>
      have h0 : ok (oracle start) = true := by simpa using hsucc
      constructor
      · simp [retryLoop, h0]
      · simp [retryLoop, h0]
    | succ m =>
      have h0 : ok (oracle start) = false := by simpa using hfail 0 m.succ_pos
      have ihm := ih (start + 1) m (by omega)
        (fun j hj => by
          have e : start + 1 + j = start + (j + 1) := by omega
          rw [e]
          exact hfail (j + 1) (by omega))
        (by
          have e : start + 1 + m = start + (m + 1) := by omega
          rw [e]
          exact hsucc)
      simp only [retryLoop, h0, Bool.false_eq_true, if_false]
      refine ⟨?_, ?_⟩
      · have e : start + 1 + m = start + (m + 1) := by omega
        rw [← e]
        exact ihm.1
      · rw [ihm.2]

theorem retryLoop_delays_get (ok : AttemptResult → Bool) (oracle : Nat → AttemptResult)
    (delay : Nat → ℚ) :
    ∀ (fuel start i : Nat) (d : ℚ),
      ((retryLoop ok oracle delay start fuel).delays).get? i = some d →
      d = delay (start + i) := by
  intro fuel
  induction fuel with
  | zero => intro start i d h; simp [retryLoop] at h
  | succ n ih =>
    intro start i d h
    cases hok : ok (oracle start) with
    | true => simp [retryLoop, hok] at h
    | false =>
      simp only [retryLoop, hok, Bool.false_eq_true, if_false] at h
      cases i with
      | zero =>
        simp only [List.get?_cons_zero, Option.some.injEq] at h
        rw [← h, Nat.add_zero]
      | succ j =>
        simp only [List.get?_cons_succ] at h
        have := ih (start + 1) j d h
        rw [this]
        exact congrArg _ (by omega)

/-! ## Claim C1 -/

/-- Claim C1, counterexample: the claim defines a failed attempt as a
non-200 status or an exception, so a status-200 response at attempt k
should be returned.  For request_with_retry this is false: with
max_retries = 1 and an attempt-1 response of status 200 whose body is
whitespace only, the helper does not return that response but the
failure sentinel. -/
theorem retry_helper_blank_200_counterexample :
    (requestWithRetry blankOracle (fun _ => 0) 1 1).response ≠ some (blankOracle 0) ∧
    (requestWithRetry blankOracle (fun _ => 0) 1 1).response = none ∧
    blankOracle 0 = .response 200 "  \t " := by
  refine ⟨by decide, by decide, rfl⟩

/-- Claim C1 (amended): for make_request_with_retry the claim holds as
stated: if the first k-1 attempts fail (non-200 or exception) and
attempt k has status 200, the helper returns the attempt-k response
after exactly k attempts, and if all max_retries attempts fail it
returns the sentinel none after exactly max_retries attempts.  For
request_with_retry the same holds once a failed attempt additionally
includes a status-200 response whose stripped body is empty, success
being the test smilesOk. -/
theorem retry_helpers_first_success_spec (oracle : Nat → AttemptResult)
    (jitter : Nat → ℚ) (maxRetries k : Nat) (initialDelay pause : ℚ) :
    (1 ≤ k → k ≤ maxRetries →
      (∀ j, j < k - 1 → keggOk (oracle j) = false) → keggOk (oracle (k - 1)) = true →
      (makeRequestWithRetry oracle jitter maxRetries initialDelay).response
          = some (oracle (k - 1)) ∧
      (makeRequestWithRetry oracle jitter maxRetries initialDelay).attempts = k) ∧
    ((∀ j, j < maxRetries → keggOk (oracle j) = false) →
      (makeRequestWithRetry oracle jitter maxRetries initialDelay).response = none ∧
      (makeRequestWithRetry oracle jitter maxRetries initialDelay).attempts = maxRetries) ∧
    (1 ≤ k → k ≤ maxRetries →
      (∀ j, j < k - 1 → smilesOk (oracle j) = false) → smilesOk (oracle (k - 1)) = true →
      (requestWithRetry oracle jitter maxRetries pause).response = some (oracle (k - 1)) ∧
      (requestWithRetry oracle jitter maxRetries pause).attempts = k) ∧
    ((∀ j, j < maxRetries → smilesOk (oracle j) = false) →
      (requestWithRetry oracle jitter maxRetries pause).response = none ∧
      (requestWithRetry oracle jitter maxRetries pause).attempts = maxRetries) := by
  refine ⟨?_, ?_, ?_, ?_⟩
  · intro hk1 hk2 hfail hsucc
    have h := retryLoop_first_success keggOk oracle
      (fun i => min (initialDelay + jitter i) 60) maxRetries 0 (k - 1)
      (by omega) (fun j hj => by simpa using hfail j hj) (by simpa using hsucc)
    unfold makeRequestWithRetry
    refine ⟨by simpa using h.1, ?_⟩
    rw [h.2]
    omega
  · intro hfail
    have h := retryLoop_all_fail keggOk oracle
      (fun i => min (initialDelay + jitter i) 60) maxRetries 0
      (fun j hj => by simpa using hfail j hj)
    unfold makeRequestWithRetry
    rw [h]
    exact ⟨rfl, rfl⟩
  · intro hk1 hk2 hfail hsucc
    have h := retryLoop_first_success smilesOk oracle
      (fun i => pause + jitter i) maxRetries 0 (k - 1)
      (by omega) (fun j hj => by simpa using hfail j hj) (by simpa using hsucc)
    unfold requestWithRetry
    refine ⟨by simpa using h.1, ?_⟩
    rw [h.2]
    omega
  · intro hfail
    have h := retryLoop_all_fail smilesOk oracle
      (fun i => pause + jitter i) maxRetries 0
      (fun j hj => by simpa using hfail j hj)
    unfold requestWithRetry
    rw [h]
    exact ⟨rfl, rfl⟩

/-- Witness for the amended claim C1: attempt 1 fails with status 500,
attempt 2 succeeds with status 200, max_retries = 3; the helper returns
the attempt-2 response after exactly 2 attempts. -/
theorem retry_helpers_first_success_spec_witness :
    (makeRequestWithRetry c1Oracle (fun _ => 0) 3 1).response = some (c1Oracle 1) ∧
    (makeRequestWithRetry c1Oracle (fun _ => 0) 3 1).attempts = 2 := by
  have h := (retry_helpers_first_success_spec c1Oracle (fun _ => 0) 3 2 1 1).1
  exact h (by decide) (by decide)
    (fun j hj => by
      have : j = 0 := by omega
      subst this
      decide)
    (by decide)

/-! ## Claim C8 -/

/-- Claim C8: every delay slept by the retry helpers is the fixed base
delay plus the jitter drawn before that sleep, with no dependence on
the attempt number beyond the jitter draw (no exponential growth): for
make_request_with_retry the delay at attempt i is
min (initial_delay + jitter i) 60, hence capped at 60 seconds, while
for request_with_retry it is pause + jitter i with no cap. -/
theorem retry_delay_spec (oracle : Nat → AttemptResult) (jitter : Nat → ℚ)
    (maxRetries : Nat) (initialDelay pause : ℚ) (i : Nat) (d : ℚ) :
    (((makeRequestWithRetry oracle jitter maxRetries initialDelay).delays).get? i
        = some d → d = min (initialDelay + jitter i) 60 ∧ d ≤ 60) ∧
    (((requestWithRetry oracle jitter maxRetries pause).delays).get? i = some d →
      d = pause + jitter i) ∧
    (∀ a b : Nat, jitter a = jitter b →
      min (initialDelay + jitter a) 60 = min (initialDelay + jitter b) 60 ∧
      pause + jitter a = pause + jitter b) := by
  refine ⟨?_, ?_, ?_⟩
  · intro h
    have := retryLoop_delays_get keggOk oracle
      (fun j => min (initialDelay + jitter j) 60) maxRetries 0 i d h
    simp only [Nat.zero_add] at this
    exact ⟨this, by rw [this]; exact min_le_right _ _⟩
  · intro h
    have := retryLoop_delays_get smilesOk oracle
      (fun j => pause + jitter j) maxRetries 0 i d h
    simpa using this
  · intro a b hab
    rw [hab]
    exact ⟨rfl, rfl⟩

/-- Witness for claim C8: with every attempt failing, jitter constantly
one half and two allowed attempts, the delay recorded after the second
attempt is min (1 + 1/2) 60 and is at most 60. -/
theorem retry_delay_spec_witness :
    min (1 + (1 / 2 : ℚ)) 60 = min (1 + (1 / 2 : ℚ)) 60 ∧
    min (1 + (1 / 2 : ℚ)) 60 ≤ 60 := by
  refine (retry_delay_spec failOracle (fun _ => (1 / 2 : ℚ)) 2 1 1 1
    (min (1 + (1 / 2 : ℚ)) 60)).1 ?_
  simp [makeRequestWithRetry, retryLoop, failOracle, keggOk]

/-! ## Claim C9 -/

/-- Claim C9, counterexample: in the drug-pathway script the worker
issues its HTTP requests through kegg_api_request, which is not a
retried request: on a failed first attempt (here an exception) it
performs no second attempt and returns the no-data sentinel after
exactly one attempt. -/
theorem kegg_api_request_counterexample :
    keggApiRequest failOracle = (none, 1) ∧
    ¬ 2 ≤ (keggApiRequest failOracle).2 := by
  exact ⟨rfl, by decide⟩

/-- Claim C9 (amended): in the disease and SMILES scripts each worker
HTTP request is retried up to the configured maximum before the worker
treats it as no data, but in the drug-pathway script kegg_api_request
performs exactly one attempt whatever the outcome, treating any failure
as no data immediately. -/
theorem worker_request_spec (oracle : Nat → AttemptResult) (jitter : Nat → ℚ)
    (maxRetries : Nat) (initialDelay pause : ℚ) :
    (keggApiRequest oracle).2 = 1 ∧
    ((∀ j, j < maxRetries → keggOk (oracle j) = false) →
      (makeRequestWithRetry oracle jitter maxRetries initialDelay).response = none ∧
      (makeRequestWithRetry oracle jitter maxRetries initialDelay).attempts = maxRetries) ∧
    ((∀ j, j < maxRetries → smilesOk (oracle j) = false) →
      (requestWithRetry oracle jitter maxRetries pause).response = none ∧
      (requestWithRetry oracle jitter maxRetries pause).attempts = maxRetries) := by
  refine ⟨?_, ?_, ?_⟩
  · cases h : oracle 0 with
    | exception => simp [keggApiRequest, h]
    | response st body =>
      simp only [keggApiRequest, h]
      split
      · rfl
      · split <;> rfl
  · intro hfail
    have h := retryLoop_all_fail keggOk oracle
      (fun j => min (initialDelay + jitter j) 60) maxRetries 0
      (fun j hj => by simpa using hfail j hj)
    unfold makeRequestWithRetry
    rw [h]
    exact ⟨rfl, rfl⟩
  · intro hfail
    have h := retryLoop_all_fail smilesOk oracle
      (fun j => pause + jitter j) maxRetries 0
      (fun j hj => by simpa using hfail j hj)
    unfold requestWithRetry
    rw [h]
    exact ⟨rfl, rfl⟩

/-- Witness for the amended claim C9: with every attempt raising, the
drug-script request performs one attempt while the disease-script
helper performs all of its two allowed attempts before giving up. -/
theorem worker_request_spec_witness :
    (keggApiRequest failOracle).2 = 1 ∧
    (makeRequestWithRetry failOracle (fun _ => 0) 2 1).response = none ∧
    (makeRequestWithRetry failOracle (fun _ => 0) 2 1).attempts = 2 := by
  have h := worker_request_spec failOracle (fun _ => 0) 2 1 1
  have h2 := h.2.1 (fun j hj => rfl)
  exact ⟨h.1, h2.1, h2.2⟩

/-! ## Claim C10 -/

/-- Claim C10: request_with_retry succeeds only when the status is 200
and the stripped body is non-empty; if every attempt answers 200 with a
whitespace-only body, every attempt counts as failed, all max_retries
attempts are performed, and the sentinel none is returned. -/
theorem blank_body_retry_spec (oracle : Nat → AttemptResult) (jitter : Nat → ℚ)
    (maxRetries : Nat) (pause : ℚ)
    (hblank : ∀ j, j < maxRetries →
      ∃ body, oracle j = .response 200 body ∧ pyStrip body = "") :
    (requestWithRetry oracle jitter maxRetries pause).response = none ∧
    (requestWithRetry oracle jitter maxRetries pause).attempts = maxRetries := by
  have hfail : ∀ j, j < maxRetries → smilesOk (oracle j) = false := by
    intro j hj
    obtain ⟨body, hb, hs⟩ := hblank j hj
    rw [hb]
    simp [smilesOk, hs]
  have h := retryLoop_all_fail smilesOk oracle (fun j => pause + jitter j) maxRetries 0
    (fun j hj => by simpa using hfail j hj)
  unfold requestWithRetry
  rw [h]
  exact ⟨rfl, rfl⟩

/-- Witness for claim C10: three attempts, each answering 200 with a
whitespace-only body; the helper exhausts all three attempts and
returns the sentinel. -/
theorem blank_body_retry_spec_witness :
    (requestWithRetry blankOracle (fun _ => 0) 3 1).response = none ∧
    (requestWithRetry blankOracle (fun _ => 0) 3 1).attempts = 3 := by
  exact blank_body_retry_spec blankOracle (fun _ => 0) 3 1
    (fun j hj => ⟨"  \t ", rfl, by decide⟩)

/-! ## Claim C2 -/

theorem evictOld_retained_lt (timePeriod now : ℚ) :
    ∀ (l : List ℚ), l.Sorted (· ≤ ·) →
      ∀ t ∈ evictOld timePeriod now l, now - t < timePeriod := by
  intro l
  induction l with
  | nil => intro _ t ht; simp [evictOld] at ht
  | cons a l ih =>
    intro hs t ht
    by_cases h : now - a < timePeriod
    · simp only [evictOld, if_pos h] at ht
      rcases List.mem_cons.mp ht with h1 | h1
      · rw [h1]; exact h
      · have hat : a ≤ t := List.rel_of_sorted_cons hs t h1
        linarith
    · simp only [evictOld, if_neg h] at ht
      exact ih hs.of_cons t ht

/-- Claim C2: one acquisition of the sliding-window rate limiter, with a
sorted (FIFO wall-clock) timestamp queue.  Before recording the call the
limiter evicts timestamps older than time_period (every retained
timestamp is strictly within the trailing window); the call is recorded
at the back of the retained queue; and if the retained queue still holds
max_calls timestamps the acquisition completes no earlier than the
oldest retained timestamp plus time_period, which is exactly the
(max_calls+1)-th acquisition scenario of the claim. -/
theorem rate_limiter_acquire_spec (rl : RateLimiter) (now : ℚ)
    (_hmax : 1 ≤ rl.maxCalls)
    (hsorted : rl.calls.Sorted (· ≤ ·))
    (hfull : rl.maxCalls ≤ (evictOld rl.timePeriod now rl.calls).length) :
    (∀ t ∈ evictOld rl.timePeriod now rl.calls, now - t < rl.timePeriod) ∧
    (rl.acquire now).1.calls = evictOld rl.timePeriod now rl.calls ++ [now] ∧
    (evictOld rl.timePeriod now rl.calls).headD 0 + rl.timePeriod ≤ (rl.acquire now).2 := by
  refine ⟨evictOld_retained_lt rl.timePeriod now rl.calls hsorted, rfl, ?_⟩
  show (evictOld rl.timePeriod now rl.calls).headD 0 + rl.timePeriod ≤
    (if rl.maxCalls ≤ (evictOld rl.timePeriod now rl.calls).length then
      if 0 < (evictOld rl.timePeriod now rl.calls).headD 0 + rl.timePeriod - now then
        now + ((evictOld rl.timePeriod now rl.calls).headD 0 + rl.timePeriod - now)
      else now
    else now)
  rw [if_pos hfull]
  by_cases hs : 0 < (evictOld rl.timePeriod now rl.calls).headD 0 + rl.timePeriod - now
  · rw [if_pos hs]; linarith
  · rw [if_neg hs]; linarith

/-- Witness for claim C2: limiter at capacity one call per 60 seconds,
one retained timestamp 0, new acquisition at time 10: the retained
timestamp is within the window, the call is recorded, and the
acquisition completes no earlier than time 60. -/
theorem rate_limiter_acquire_spec_witness :
    (∀ t ∈ evictOld 60 10 [(0 : ℚ)], (10 : ℚ) - t < 60) ∧
    (RateLimiter.acquire ⟨1, 60, [0]⟩ 10).1.calls = evictOld 60 10 [(0 : ℚ)] ++ [10] ∧
    (evictOld 60 10 [(0 : ℚ)]).headD 0 + 60 ≤ (RateLimiter.acquire ⟨1, 60, [0]⟩ 10).2 := by
  refine rate_limiter_acquire_spec ⟨1, 60, [0]⟩ 10 (by norm_num) (by simp) ?_
  show 1 ≤ (evictOld 60 10 [(0 : ℚ)]).length
  norm_num [evictOld]

/-! ## Claim C4 -/

theorem mem_saveResults_of_mem_table (pairs : List (String × String)) :
    ∀ (table : List (String × String)) (p : String × String),
      p ∈ table → p ∈ saveResults pairs table := by
  induction pairs with
  | nil => intro table p hp; exact hp
  | cons q pairs ih =>
    intro table p hp
    refine ih (insertOrIgnore table q) p ?_
    unfold insertOrIgnore
    split
    · exact hp
    · exact List.mem_append_left _ hp

theorem mem_saveResults_of_mem_pairs (pairs : List (String × String)) :
    ∀ (table : List (String × String)) (p : String × String),
      p ∈ pairs → p ∈ saveResults pairs table := by
  induction pairs with
  | nil => intro table p hp; simp at hp
  | cons q pairs ih =>
    intro table p hp
    rcases List.mem_cons.mp hp with h1 | h1
    · subst h1
      refine mem_saveResults_of_mem_table pairs (insertOrIgnore table p) p ?_
      unfold insertOrIgnore
      split
      · assumption
      · simp
    · exact ih (insertOrIgnore table q) p h1

theorem saveResults_eq_of_subset (pairs : List (String × String)) :
    ∀ (table : List (String × String)), (∀ p ∈ pairs, p ∈ table) →
      saveResults pairs table = table := by
  induction pairs with
  | nil => intro table _; rfl
  | cons q pairs ih =>
    intro table h
    have hq : q ∈ table := h q (List.mem_cons_self q pairs)
    have e : insertOrIgnore table q = table := by
      unfold insertOrIgnore
      rw [if_pos hq]
    show saveResults pairs (insertOrIgnore table q) = table
    rw [e]
    exact ih table (fun p hp => h p (List.mem_cons_of_mem q hp))

/-- Claim C4: the database sink is idempotent.  Running the
INSERT OR IGNORE sink a second time with the same pair set (any list
whose pairs all occurred in the first run) leaves the
unique-constraint-backed table unchanged, hence with exactly the same
row count as one run. -/
theorem save_results_idempotent (pairs rerunPairs : List (String × String))
    (table : List (String × String)) (hsub : ∀ p ∈ rerunPairs, p ∈ pairs) :
    saveResults rerunPairs (saveResults pairs table) = saveResults pairs table ∧
    (saveResults rerunPairs (saveResults pairs table)).length
      = (saveResults pairs table).length := by
  have h := saveResults_eq_of_subset rerunPairs (saveResults pairs table)
    (fun p hp => mem_saveResults_of_mem_pairs pairs table p (hsub p hp))
  exact ⟨h, by rw [h]⟩

/-- Witness for claim C4: re-running the sink with the same two pairs in
a different order changes neither the table nor its row count. -/
theorem save_results_idempotent_witness :
    saveResults [("D00002", "path:hsa00002"), ("D00001", "path:hsa00001")]
        (saveResults [("D00001", "path:hsa00001"), ("D00002", "path:hsa00002")] []) =
      saveResults [("D00001", "path:hsa00001"), ("D00002", "path:hsa00002")] [] ∧
    (saveResults [("D00002", "path:hsa00002"), ("D00001", "path:hsa00001")]
        (saveResults [("D00001", "path:hsa00001"), ("D00002", "path:hsa00002")] [])).length =
      (saveResults [("D00001", "path:hsa00001"), ("D00002", "path:hsa00002")] []).length := by
  exact save_results_idempotent _ _ [] (by decide)

/-! ## Claim C7 -/

/-- Claim C7: the chunk worker of the disease script processes every
item: the result list has one entry per input disease in order; a
disease whose processing raises is recorded with an empty pathway list,
and a disease whose processing succeeds is recorded with its pathways —
no single failure aborts the remaining siblings. -/
theorem process_diseases_chunk_spec
    (run : String → Except String (List String × String))
    (diseaseIds : List String) (chunkId : Nat) :
    (processDiseasesChunk run diseaseIds chunkId).length = diseaseIds.length ∧
    (∀ d e, d ∈ diseaseIds → run d = .error e →
      (d, ([] : List String)) ∈ processDiseasesChunk run diseaseIds chunkId) ∧
    (∀ d pws rest, d ∈ diseaseIds → run d = .ok (pws, rest) →
      (d, pws) ∈ processDiseasesChunk run diseaseIds chunkId) := by
  refine ⟨List.length_map _ _, ?_, ?_⟩
  · intro d e hd he
    refine List.mem_map.mpr ⟨d, hd, ?_⟩
    simp only [he]
  · intro d pws rest hd he
    refine List.mem_map.mpr ⟨d, hd, ?_⟩
    simp only [he]

/-- Witness for claim C7: of two diseases, the second raises; both are
still recorded, the failing one with an empty pathway list. -/
theorem process_diseases_chunk_spec_witness :
    (processDiseasesChunk c7Run ["H1", "H2"] 0).length = 2 ∧
    ("H2", ([] : List String)) ∈ processDiseasesChunk c7Run ["H1", "H2"] 0 ∧
    ("H1", ["hsa00001"]) ∈ processDiseasesChunk c7Run ["H1", "H2"] 0 := by
  have h := process_diseases_chunk_spec c7Run ["H1", "H2"] 0
  exact ⟨h.1, h.2.1 "H2" "boom" (by simp) rfl, h.2.2 "H1" ["hsa00001"] "H1" (by simp) rfl⟩

/-! ## Claim C6 -/

theorem sqlStep_inner_fold (diseaseId : String) :
    ∀ (pws : List String) (st : SqlOut),
      pws.foldl (fun s pathway =>
        { s with
          content := s.content ++ insertStatement diseaseId pathway
          insertCount := s.insertCount + 1 }) st =
      { st with
        content := st.content ++ strConcat (pws.map (insertStatement diseaseId))
        insertCount := st.insertCount + pws.length } := by
  intro pws
  induction pws with
  | nil =>
    intro st
    cases st
    simp [strConcat]
  | cons p pws ih =>
    intro st
    rw [List.foldl_cons, ih]
    cases st with
    | mk c i w wo =>
      simp only [strConcat, List.map_cons, SqlOut.mk.injEq, List.length_cons,
        String.append_assoc, true_and, and_true]
      omega

theorem sqlFold_spec (results : List (String × List String)) :
    ∀ st : SqlOut,
      results.foldl sqlStep st =
        { st with
          content := st.content ++ sqlBody results
          insertCount := st.insertCount + totalInserts results
          withPathways := st.withPathways + countWithData results
          withoutPathways := st.withoutPathways + countWithoutData results } := by
  induction results with
  | nil =>
    intro st
    cases st
    simp [sqlBody, strConcat, totalInserts, countWithData, countWithoutData]
  | cons e rest ih =>
    intro st
    rw [List.foldl_cons]
    by_cases he : e.2 = []
    · have hstep : sqlStep st e = { st with withoutPathways := st.withoutPathways + 1 } := by
        unfold sqlStep
        rw [if_neg (not_not_intro he)]
      rw [hstep, ih]
      cases st with
      | mk c i w wo =>
        have hbody : sqlBody (e :: rest) = sqlBody rest := by
          simp [sqlBody, strConcat, he]
        have htotal : totalInserts (e :: rest) = totalInserts rest := by
          simp [totalInserts, he]
        have hwith : countWithData (e :: rest) = countWithData rest := by
          simp [countWithData, List.filter_cons, he]
        have hwithout : countWithoutData (e :: rest) = countWithoutData rest + 1 := by
          simp [countWithoutData, List.filter_cons, he]
        rw [hbody, htotal, hwith, hwithout]
        simp only [SqlOut.mk.injEq, true_and, and_true]
        omega
    · have hstep : sqlStep st e =
          { st with
            content := st.content ++ strConcat (e.2.map (insertStatement e.1))
            insertCount := st.insertCount + e.2.length
            withPathways := st.withPathways + 1 } := by
        unfold sqlStep
        rw [if_pos he, sqlStep_inner_fold]
      rw [hstep, ih]
      cases st with
      | mk c i w wo =>
        have hne : (e.2.isEmpty = false) := by
          cases h2 : e.2 with
          | nil => exact absurd h2 he
          | cons a l => rfl
        have hbody : sqlBody (e :: rest) =
            strConcat (e.2.map (insertStatement e.1)) ++ sqlBody rest := by
          simp [sqlBody, strConcat]
        have htotal : totalInserts (e :: rest) = e.2.length + totalInserts rest := by
          simp [totalInserts]
        have hwith : countWithData (e :: rest) = countWithData rest + 1 := by
          simp [countWithData, List.filter_cons, hne]
        have hwithout : countWithoutData (e :: rest) = countWithoutData rest := by
          simp [countWithoutData, List.filter_cons, hne]
        rw [hbody, htotal, hwith, hwithout]
        simp only [SqlOut.mk.injEq, String.append_assoc, true_and, and_true]
        omega

theorem countWith_add_countWithout (results : List (String × List String)) :
    countWithData results + countWithoutData results = results.length := by
  induction results with
  | nil => rfl
  | cons e rest ih =>
    cases he : e.2.isEmpty with
    | true =>
      simp [countWithData, countWithoutData, List.filter_cons, he] at ih ⊢
      omega
    | false =>
      simp [countWithData, countWithoutData, List.filter_cons, he] at ih ⊢
      omega

/-- Claim C6: write_sql_file produces a script that opens with a
transaction begin, then a blanket DELETE of the target table, then
exactly one INSERT per pathway of each entry with a non-empty pathway
list, then a commit; its insert counter equals the total number of
pathways, and the with-data and without-data counters partition the
input list. -/
theorem write_sql_file_spec (results : List (String × List String)) :
    (writeSqlFile results).content =
      "BEGIN TRANSACTION;\n\n" ++ "DELETE FROM DiseasePathways;\n" ++
        "-- Inserting disease-pathway relationships\n\n" ++ sqlBody results ++
        "\nCOMMIT;\n" ∧
    (writeSqlFile results).insertCount = totalInserts results ∧
    (writeSqlFile results).withPathways = countWithData results ∧
    (writeSqlFile results).withoutPathways = countWithoutData results ∧
    (writeSqlFile results).withPathways + (writeSqlFile results).withoutPathways
      = results.length := by
  simp only [writeSqlFile]
  rw [sqlFold_spec]
  refine ⟨?_, by simp, by simp, by simp, ?_⟩
  · simp [String.append_assoc]
  · simp [countWith_add_countWithout]

/-! ## Claim C5 -/

set_option maxRecDepth 40000 in
/-- Claim C5: on the mocked network (pathway-link answering one line
with path:hsa04910, get-entry answering a record whose PATHWAY section
names hsa04930, gene links empty), the disease pipeline computes
exactly the pathway set with the two members hsa04910 and hsa04930 for
H00001, and the generated SQL file for that single result carries
exactly two INSERT statements, both for a disease with data. -/
theorem disease_pipeline_end_to_end :
    (getDiseasePathways mockFetch "H00001").1 = ["hsa04910", "hsa04930"] ∧
    (writeSqlFile [("H00001", (getDiseasePathways mockFetch "H00001").1)]).insertCount
      = 2 ∧
    (writeSqlFile [("H00001", (getDiseasePathways mockFetch "H00001").1)]).withPathways
      = 1 ∧
    (writeSqlFile [("H00001", (getDiseasePathways mockFetch "H00001").1)]).content
      = "BEGIN TRANSACTION;\n\n" ++ "DELETE FROM DiseasePathways;\n" ++
          "-- Inserting disease-pathway relationships\n\n" ++
          insertStatement "H00001" "hsa04910" ++ insertStatement "H00001" "hsa04930" ++
          "\nCOMMIT;\n" := by
  refine ⟨by decide, by decide, by decide, by decide⟩

/-! ## Claim C3 -/

set_option maxRecDepth 40000 in
/-- Claim C3, counterexample: a record whose PATHWAY section (header plus
exactly 3 indented lines) is closed by a non-indented line that itself
begins with PATHWAY.  The closing line is scanned because it reopens the
section, so the extractor returns its code path:hsa00005 as well — a code
from a line at the closing non-indented line — and the output is not the
code set of the 4 section lines. -/
theorem extract_pathway_section_counterexample :
    pySplit '\n' c3CounterRecord =
      ["ENTRY", "PATHWAY     hsa00001", "  hsa00002", "  hsa00003",
        "  hsa00004", "PATHWAY     hsa00005", "///"] ∧
    strStartsWith "  " "PATHWAY     hsa00005" = false ∧
    "path:hsa00005" ∈ extractPathwaysFromEntry c3CounterRecord ∧
    extractPathwaysFromEntry c3CounterRecord ≠
      ["path:hsa00001", "path:hsa00002", "path:hsa00003", "path:hsa00004"] := by
  refine ⟨by decide, by decide, by decide, by decide⟩

theorem indented_not_pathway (line : String)
    (h : strStartsWith "  " line = true) :
    strStartsWith "PATHWAY" line = false := by
  unfold strStartsWith at h ⊢
  obtain ⟨t, ht⟩ := List.isPrefixOf_iff_prefix.mp h
  have hd : "  ".data = [' ', ' '] := rfl
  rw [hd] at ht
  rw [← ht]
  rfl

theorem extractLoop_skip (line : String)
    (hl : strStartsWith "PATHWAY" line = false) (rest : List String) :
    extractLoop false (line :: rest) = extractLoop false rest := by
  simp [extractLoop, hl]

theorem extractLoop_skip_all :
    ∀ (ls : List String), (∀ l ∈ ls, strStartsWith "PATHWAY" l = false) →
      ∀ rest, extractLoop false (ls ++ rest) = extractLoop false rest := by
  intro ls
  induction ls with
  | nil => intro _ rest; rfl
  | cons a ls ih =>
    intro h rest
    rw [List.cons_append, extractLoop_skip a (h a (List.mem_cons_self a ls)),
      ih (fun l hl => h l (List.mem_cons_of_mem a hl)) rest]

theorem extractLoop_closed_none (ls : List String)
    (h : ∀ l ∈ ls, strStartsWith "PATHWAY" l = false) :
    extractLoop false ls = [] := by
  have h2 := extractLoop_skip_all ls h []
  simpa using h2

/-- Claim C3 (amended): for a record whose lines are a prefix with no
PATHWAY-opening line, then a PATHWAY header, exactly 3 indented lines,
a closing non-indented line, and a suffix in which, as for the closing
line, no line begins with PATHWAY, the extractor returns exactly the
path:-prefixed codes matched by the pathway regex in the 4 section
lines (header plus 3 continuation lines), in order, and no code from
any line at or after the closing line. -/
theorem extract_pathway_section_spec (entry : String) (pre post : List String)
    (h i1 i2 i3 c : String)
    (hlines : pySplit '\n' entry = pre ++ h :: i1 :: i2 :: i3 :: c :: post)
    (hpre : ∀ l ∈ pre, strStartsWith "PATHWAY" l = false)
    (hh : strStartsWith "PATHWAY" h = true)
    (hi1 : strStartsWith "  " i1 = true)
    (hi2 : strStartsWith "  " i2 = true)
    (hi3 : strStartsWith "  " i3 = true)
    (hc : strStartsWith "  " c = false)
    (hcp : strStartsWith "PATHWAY" c = false)
    (hpost : ∀ l ∈ post, strStartsWith "PATHWAY" l = false) :
    extractPathwaysFromEntry entry =
      pathMatches h ++ pathMatches i1 ++ pathMatches i2 ++ pathMatches i3 := by
  unfold extractPathwaysFromEntry
  rw [hlines, extractLoop_skip_all pre hpre]
  have e1 : extractLoop false (h :: i1 :: i2 :: i3 :: c :: post) =
      pathMatches h ++ extractLoop true (i1 :: i2 :: i3 :: c :: post) := by
    simp [extractLoop, hh]
  have eIndented : ∀ (line : String), strStartsWith "  " line = true →
      ∀ rest, extractLoop true (line :: rest) =
        pathMatches line ++ extractLoop true rest := by
    intro line hline rest
    simp [extractLoop, indented_not_pathway line hline, hline]
  have eClose : extractLoop true (c :: post) = extractLoop false post := by
    simp [extractLoop, hcp, hc]
  rw [e1, eIndented i1 hi1, eIndented i2 hi2, eIndented i3 hi3, eClose,
    extractLoop_closed_none post hpost]
  simp [List.append_assoc]

set_option maxRecDepth 40000 in
/-- Witness for the amended claim C3: a concrete record with an ENTRY
line before the section, a 4-line PATHWAY section, a closing slash line
and a trailing line whose code hsa99999 is not extracted. -/
theorem extract_pathway_section_spec_witness :
    extractPathwaysFromEntry c3WitnessRecord =
      pathMatches "PATHWAY     hsa00001" ++ pathMatches "  hsa00002 and hsa00003" ++
        pathMatches "  text" ++ pathMatches "  hsa00004" := by
  refine extract_pathway_section_spec c3WitnessRecord ["ENTRY"] ["trailing hsa99999"]
    "PATHWAY     hsa00001" "  hsa00002 and hsa00003" "  text" "  hsa00004" "///"
    (by decide) (by decide) (by decide) (by decide) (by decide) (by decide)
    (by decide) (by decide) (by decide)
